import Mathlib

/-!
Shallow embedding of `hw5/decision_tree_starter.py`, with exact
rationals for feature values, integers for class labels, and real
numbers for the results of the `np.log2`-based floating-point
arithmetic.  Python exceptions are modelled as `none`.

The embedding has two layers:

- As-executed definitions (`entropyRun`, `information_gainRun`,
  `statsModeRun`, `chooseSplitRun`, `fitRun`, `BaggedTrees.predictRun`)
  model the program as it actually runs.  The source never imports
  `stats` or `mode`, and the body of `entropy` reads the unbound name
  `t` where its parameter is named `y`; consequently `entropy` raises
  `NameError` on every call — empty input included, since
  `if not len(t)` evaluates `t` before the early return —
  `information_gain` raises at its first statement `entropy(y)`, `fit`
  raises at `stats.mode` on every leaf (after assigning `data` and
  `labels`), and `BaggedTrees.predict` raises at the unbound `mode`.
  Pure code that does execute before any of these raises — the
  threshold generation of `fit`, `split_test`, `split`, and the mask
  expressions of `information_gain` — is embedded directly.
- A documented charitable reading of `entropy` (`t` read as `y`),
  together with the Shannon formula `entropySpec` written from the
  specification's words, is kept solely to compare the two: even past
  the `NameError`, the body would not compute the specified formula,
  because `len(np.where(t == i))` is the length of the 1-tuple
  `np.where` returns, not the count of matches.
-/

/-- Small constant `eps = 1e-5` from the module header, as an exact
rational. -/
def eps : ℚ := 1 / 100000

/-- Column `X[:, i]` of the row-major feature matrix (numpy arrays are
rectangular, so the per-row default is never consulted on well-formed
input). -/
def col (X : List (List ℚ)) (i : ℕ) : List ℚ :=
  X.map (fun r => r.getD i 0)

/-- Value of `np.min` on a vector; the source only applies it to
non-empty columns (`np.min` of a zero-size array raises, which the
callers model as `none` before ever calling this). -/
def listMin (l : List ℚ) : ℚ := l.foldl min (l.headD 0)

/-- Value of `np.max` on a vector, under the same proviso as
`listMin`. -/
def listMax (l : List ℚ) : ℚ := l.foldl max (l.headD 0)

/-- Ten evenly spaced values from `a` to `b` inclusive:
`np.linspace(a, b, num=10)`, whose step is `(b - a) / 9` and whose last
element is exactly `b`. -/
def linspace10 (a b : ℚ) : List ℚ :=
  (List.range 10).map (fun (j : ℕ) => a + (j : ℚ) * ((b - a) / 9))

/-- Total element count `A.size` of a numpy array given as a list of
rows. -/
def matSize (X : List (List ℚ)) : ℕ := (X.map List.length).sum

/-- Sequence a fallible map over a list, failing as soon as one element
fails — a raised exception propagates out of a Python loop or
comprehension. -/
def mapOpt {α β : Type} (f : α → Option β) : List α → Option (List β)
  | [] => some []
  | a :: l => match f a, mapOpt f l with
    | some b, some bs => some (b :: bs)
    | _, _ => none

/-- The calls `stats.mode(y, keepdims=True).mode[0]` (in
`DecisionTree.fit`) and the bare `mode` (in `BaggedTrees.predict`) as
the source actually executes them: neither `stats` nor `mode` is ever
imported, so evaluating the call expression raises `NameError` before
scipy is ever consulted — no value is produced on any input. -/
def statsModeRun (_y : List ℤ) : Option ℤ := none

namespace DecisionTree

/-- Charitable reading of `DecisionTree.entropy`, kept only to compare
the body against the specified formula: the body names its argument `t`
while the parameter is `y`, so the real function raises `NameError` on
every call (see `entropyRun`); this definition reads `t` as `y` and
keeps every other behaviour of the body.  In particular
`temp2 = len(np.where(t == i))` is the length of the 1-tuple `np.where`
returns on a 1-D array — that is `1`, not the number of matches — so
every "proportion" `p` equals `1 / len(y)`.  `np.unique` iterates over
the distinct labels (`dedup`; the sort order does not affect the sum),
and under this reading empty input returns `0` through the early
return. -/
noncomputable def entropy (y : List ℤ) : ℝ :=
  if y.isEmpty then 0
  else y.dedup.foldl
    (fun e _i => e - 1 / (y.length : ℝ) * Real.logb 2 (1 / (y.length : ℝ))) 0

/-- Shannon entropy exactly as the specification words it:
`-Σ p_c·log2 p_c` over the observed class proportions of `labels`, `0`
on empty input.  Written from the spec only to compare `entropy`
against it. -/
noncomputable def entropySpec (y : List ℤ) : ℝ :=
  if y.isEmpty then 0
  else y.dedup.foldl
    (fun e i => e - (y.count i : ℝ) / (y.length : ℝ) *
      Real.logb 2 ((y.count i : ℝ) / (y.length : ℝ))) 0

/-- `DecisionTree.entropy` as it actually executes: its first evaluated
expression, `if not len(t)`, reads the unbound name `t` (the parameter
is `y`), so every call — including one on an empty vector, since `t` is
read before the early return could fire — raises `NameError` and no
value is ever produced. -/
def entropyRun (_y : List ℤ) : Option ℝ := none

/-- Labels `y[X > thresh]`: boolean-mask selection pairing the feature
column and the labels positionally. -/
def yAbove (Xc : List ℚ) (y : List ℤ) (thresh : ℚ) : List ℤ :=
  ((Xc.zip y).filter (fun p => decide (thresh < p.1))).map Prod.snd

/-- Labels `y[X <= thresh]`. -/
def yBelowEq (Xc : List ℚ) (y : List ℤ) (thresh : ℚ) : List ℤ :=
  ((Xc.zip y).filter (fun p => decide (p.1 ≤ thresh))).map Prod.snd

/-- `DecisionTree.information_gain` as it actually executes, statement
by statement: `start = entropy(y)` comes first and raises `NameError`
on every input (see `entropyRun`), so the whole function never returns.
The later statements are embedded in source order for fidelity even
though they are unreachable: the boolean masks `y[X > thresh]` /
`y[X <= thresh]` raise `IndexError` on a length mismatch, the side
entropies again call `entropy`, and the final division is by `len(y)`
(`ZeroDivisionError` when the labels are empty, since the numerator is
then the plain int `0`). -/
noncomputable def information_gainRun (Xc : List ℚ) (y : List ℤ) (thresh : ℚ) : Option ℝ :=
  match entropyRun y with
  | none => none
  | some start =>
    if Xc.length ≠ y.length then none
    else
      match entropyRun (yAbove Xc y thresh), entropyRun (yBelowEq Xc y thresh) with
      | some left_entropy, some right_entropy =>
        if y.length = 0 then none
        else some (start -
          (((yAbove Xc y thresh).length : ℝ) * left_entropy +
            ((yBelowEq Xc y thresh).length : ℝ) * right_entropy) / (y.length : ℝ))
      | _, _ => none

/-- Embedding of `DecisionTree.split_test` (which executes without
error in the source): `idx0` is the increasing list of row indices with
`X[:, idx] < thresh` and `idx1` the increasing list with
`X[:, idx] >= thresh` (as `np.where` yields them), and the result is
`(X0, idx0, X1, idx1)` with `X0 = X[idx0, :]`, `X1 = X[idx1, :]`. -/
def split_test (X : List (List ℚ)) (idx : ℕ) (thresh : ℚ) :
    List (List ℚ) × List ℕ × List (List ℚ) × List ℕ :=
  (((List.range X.length).filter
      (fun i => decide ((X.getD i []).getD idx 0 < thresh))).map (fun i => X.getD i []),
   (List.range X.length).filter (fun i => decide ((X.getD i []).getD idx 0 < thresh)),
   ((List.range X.length).filter
      (fun i => decide (thresh ≤ (X.getD i []).getD idx 0))).map (fun i => X.getD i []),
   (List.range X.length).filter (fun i => decide (thresh ≤ (X.getD i []).getD idx 0)))

/-- Embedding of `DecisionTree.split`: the two sub-matrices of
`split_test` with their label vectors, `(X0, y0, X1, y1)`. -/
def split (X : List (List ℚ)) (y : List ℤ) (idx : ℕ) (thresh : ℚ) :
    List (List ℚ) × List ℤ × List (List ℚ) × List ℤ :=
  ((split_test X idx thresh).1,
   (split_test X idx thresh).2.1.map (fun i => y.getD i 0),
   (split_test X idx thresh).2.2.1,
   (split_test X idx thresh).2.2.2.map (fun i => y.getD i 0))

/-- Candidate thresholds for dimension `i` generated by `fit`:
`np.linspace(np.min(X[:, i]) + eps, np.max(X[:, i]) - eps, num=10)`.
The threshold comprehension completes before the gain loop runs, so
this is real executed behaviour of the source. -/
def threshes (X : List (List ℚ)) (i : ℕ) : List ℚ :=
  linspace10 (listMin (col X i) + eps) (listMax (col X i) - eps)

/-- Index of the first occurrence of the maximum of a non-empty list,
as `np.argmax` computes it on the flattened (row-major) gain array. -/
noncomputable def argmaxIdx : List ℝ → ℕ
  | [] => 0
  | [_] => 0
  | x :: xs => if x < xs.getD (argmaxIdx xs) 0 then argmaxIdx xs + 1 else 0

/-- Split search of `fit` (the `max_depth > 0` branch) as it actually
executes, in source order: `np.min`/`np.max` inside the threshold
comprehension raise on zero rows (`none`); with zero columns the gain
array is empty and `np.argmax` raises (`none`); otherwise the gain loop
calls `information_gain`, whose very first call raises `NameError` (see
`information_gainRun`), so the search never reaches the
`self.split_idx` assignment.  The selection arms after the gain matrix
(`np.nan_to_num`, `np.unravel_index(np.argmax(gains), (D, 10))`) are
embedded for fidelity although they are unreachable. -/
noncomputable def chooseSplitRun (X : List (List ℚ)) (y : List ℤ) : Option (ℕ × ℚ) :=
  if X.isEmpty then none
  else if (X.headD []).length = 0 then none
  else
    match mapOpt
        (fun i => mapOpt (fun t => information_gainRun (col X i) y t) (threshes X i))
        (List.range (X.headD []).length) with
    | none => none
    | some gains =>
      some (argmaxIdx gains.flatten / 10,
        (threshes X (argmaxIdx gains.flatten / 10)).getD (argmaxIdx gains.flatten % 10) 0)

/-- Fitted node as the specification intends it: either an internal
node or a leaf with no children.  Used as the would-be result type of
`fit`. -/
inductive Tree where
  | leaf (data : List (List ℚ)) (labels : List ℤ) (pred : ℤ)
  | node (split_idx : ℕ) (thresh : ℚ) (left : Tree) (right : Tree)

/-- The mutable fields of a `DecisionTree` node that `fit` assigns:
`self.split_idx`, `self.thresh`, `self.data`, `self.labels`,
`self.pred`; `none` means still unassigned (as `__init__` leaves
them).  The child fields `self.left`/`self.right` are assigned only
inside the recursion branch, which is unreachable because the split
search raises first; they therefore stay unassigned and are omitted. -/
structure NodeFields where
  split_idx : Option ℕ
  thresh : Option ℚ
  data : Option (List (List ℚ))
  labels : Option (List ℤ)
  pred : Option ℤ

/-- `DecisionTree.fit` as it actually executes, with the constructor
field `max_depth` as the first argument.  The result pairs the node's
fields after the call with the returned tree (`none` = the call raised;
the fields still hold whatever was assigned before the raise).  With
`max_depth = 0` the source assigns `self.data, self.labels = X, y` and
then evaluates `stats.mode(y, ...)`, which raises `NameError` (`stats`
is never imported), so `pred` is never assigned and no value is
returned.  With `max_depth > 0` the split search raises before
`self.split_idx` is assigned (see `chooseSplitRun`); the remaining arms
— `split_idx`/`thresh` assigned before the `X0.size > 0 and
X1.size > 0` check, recursion into two children, leaf fallback — are
embedded in source order for fidelity although they are unreachable. -/
noncomputable def fitRun : ℕ → List (List ℚ) → List ℤ → NodeFields × Option Tree
  | 0, X, y =>
    match statsModeRun y with
    | none => (⟨none, none, some X, some y, none⟩, none)
    | some p => (⟨none, none, some X, some y, some p⟩, some (Tree.leaf X y p))
  | d + 1, X, y =>
    match chooseSplitRun X y with
    | none => (⟨none, none, none, none, none⟩, none)
    | some (si, th) =>
      if matSize (split X y si th).1 ≠ 0 ∧ matSize (split X y si th).2.2.1 ≠ 0 then
        match (fitRun d (split X y si th).1 (split X y si th).2.1).2,
            (fitRun d (split X y si th).2.2.1 (split X y si th).2.2.2).2 with
        | some l, some r => (⟨some si, some th, none, none, none⟩, some (Tree.node si th l r))
        | _, _ => (⟨some si, some th, none, none, none⟩, none)
      else
        match statsModeRun y with
        | none => (⟨some si, some th, some X, some y, none⟩, none)
        | some p => (⟨some si, some th, some X, some y, some p⟩, some (Tree.leaf X y p))

end DecisionTree

namespace BaggedTrees

/-- `BaggedTrees.predict` as it actually executes, with the fitted
sklearn member trees abstracted as prediction functions (external
collaborators whose `predict` does work): the loop fills the
`predictions` matrix, one entry per member and row, and then the
return expression evaluates the unbound name `mode` — never imported —
raising `NameError` on every call, so no label vector is ever
returned. -/
def predictRun (trees : List (List ℚ → ℤ)) (X : List (List ℚ)) : Option (List ℤ) :=
  let _predictions := X.map (fun row => trees.map (fun t => t row))
  none

end BaggedTrees

/-! Helper lemmas about the embedded primitives. -/

theorem mapOpt_eq_none {α β : Type} (f : α → Option β) (l : List α) (a : α)
    (ha : a ∈ l) (hfa : f a = none) : mapOpt f l = none := by
  induction l with
  | nil => cases ha
  | cons x l1 ih =>
    rcases List.mem_cons.mp ha with rfl | ha2
    · rw [mapOpt, hfa]
    · rw [mapOpt, ih ha2]
      cases f x <;> rfl

theorem getD_range_map (n j : ℕ) (f : ℕ → ℚ) (d : ℚ) (h : j < n) :
    ((List.range n).map f).getD j d = f j := by
  rw [List.getD_eq_getElem?_getD, List.getElem?_map, List.getElem?_range h]
  rfl

theorem getD_mem_of_lt {α : Type} (l : List α) (n : ℕ) (d : α) (h : n < l.length) :
    l.getD n d ∈ l := by
  rw [List.getD_eq_getElem?_getD, List.getElem?_eq_getElem h]
  exact List.getElem_mem h

theorem chooseSplitRun_none (X : List (List ℚ)) (y : List ℤ) :
    DecisionTree.chooseSplitRun X y = none := by
  rcases eq_or_ne X [] with rfl | hX
  · rw [DecisionTree.chooseSplitRun]
    rfl
  rcases eq_or_ne (X.headD []).length 0 with hD | hD
  · rw [DecisionTree.chooseSplitRun, if_neg (by simp [List.isEmpty_iff, hX]), if_pos hD]
  · rw [DecisionTree.chooseSplitRun, if_neg (by simp [List.isEmpty_iff, hX]), if_neg hD]
    have h10 : (DecisionTree.threshes X 0).length = 10 := by
      simp [DecisionTree.threshes, linspace10]
    have ht0 : (DecisionTree.threshes X 0).getD 0 0 ∈ DecisionTree.threshes X 0 :=
      getD_mem_of_lt _ 0 0 (by omega)
    have hinner : mapOpt (fun t => DecisionTree.information_gainRun (col X 0) y t)
        (DecisionTree.threshes X 0) = none :=
      mapOpt_eq_none _ _ _ ht0 rfl
    have houter : mapOpt
        (fun i => mapOpt (fun t => DecisionTree.information_gainRun (col X i) y t)
          (DecisionTree.threshes X i))
        (List.range (X.headD []).length) = none :=
      mapOpt_eq_none _ _ 0 (List.mem_range.mpr (Nat.pos_of_ne_zero hD)) hinner
    rw [houter]

/-! Claim theorems. -/

/-- C1: the terminal condition of `fit` never produces a leaf in the
source.  At depth budget 0 the code assigns `data` and `labels` and
then raises `NameError` at `stats.mode` (never imported), so `pred` is
never set and no leaf is returned — here evaluated at the failing input
`X = [[1], [2]]`, `y = [0, 1]`, `max_depth = 0` — and with any depth
budget `fit` returns no tree at all (with a positive budget it raises
already in the split search). -/
theorem fit_leaf_path_raises :
    DecisionTree.fitRun 0 [[1], [2]] [0, 1] =
        (⟨none, none, some [[1], [2]], some [0, 1], none⟩, none) ∧
      ∀ (d : ℕ) (X : List (List ℚ)) (y : List ℤ),
        (DecisionTree.fitRun d X y).2 = none := by
  refine ⟨rfl, ?_⟩
  intro d X y
  cases d with
  | zero => rfl
  | succ e =>
    have h : DecisionTree.fitRun (e + 1) X y = (⟨none, none, none, none, none⟩, none) := by
      simp only [DecisionTree.fitRun]
      rw [chooseSplitRun_none]
    rw [h]

/-- C2: `DecisionTree.entropy` does not compute `-Σ p_c·log2 p_c` over
the observed class proportions.  On the single-class vector `[0, 0]`
the embedded code yields `1/2` — each per-class "count" is the length
of the tuple `np.where` returns, namely `1` — while the claimed formula
(`entropySpec`) yields `0`; the unembedded original raises `NameError`
on the undefined `t` before returning anything at all. -/
theorem entropy_at_failing_input :
    DecisionTree.entropy [0, 0] = 1 / 2 ∧ DecisionTree.entropySpec [0, 0] = 0 ∧
      DecisionTree.entropy [0, 0] ≠ DecisionTree.entropySpec [0, 0] := by
  have hd : ([0, 0] : List ℤ).dedup = [0] := by decide
  have hlog : Real.logb 2 (1 / 2 : ℝ) = -1 := by
    rw [one_div, Real.logb_inv, Real.logb_self_eq_one one_lt_two]
  have hc : ([0, 0] : List ℤ).count 0 = 2 := by decide
  have h1 : DecisionTree.entropy [0, 0] = 1 / 2 := by
    rw [DecisionTree.entropy, if_neg (by simp), hd]
    simp only [List.foldl_cons, List.foldl_nil, List.length_cons, List.length_nil]
    norm_num [hlog]
  have h2 : DecisionTree.entropySpec [0, 0] = 0 := by
    rw [DecisionTree.entropySpec, if_neg (by simp), hd]
    simp only [List.foldl_cons, List.foldl_nil, hc]
    norm_num [Real.logb_one]
  refine ⟨h1, h2, ?_⟩
  rw [h1, h2]
  norm_num

/-- C3: `information_gain` never returns the claimed formula because it
never returns at all: its first statement `start = entropy(y)` raises
`NameError` (the unbound `t` inside `entropy`) on every input — here
evaluated at `featureValues = [1]`, `labels = [5]`, `threshold = 0`,
and in general. -/
theorem information_gain_always_raises :
    DecisionTree.information_gainRun [1] [5] 0 = none ∧
      ∀ (Xc : List ℚ) (y : List ℤ) (t : ℚ),
        DecisionTree.information_gainRun Xc y t = none :=
  ⟨rfl, fun _ _ _ => rfl⟩

/-- C4: at a feature value exactly equal to the threshold the two
partitioning conventions disagree: `information_gain` keeps the
boundary example on its low side (`X <= thresh`, via `yBelowEq`), while
`split_test` keeps the same row on its high side (`X >= thresh`), so
the two functions do not induce the same partition of the one-row
dataset `[[3]]` with label `[7]` at threshold `3`. -/
theorem boundary_conventions_disagree :
    DecisionTree.yBelowEq [3] [7] 3 = [7] ∧ DecisionTree.yAbove [3] [7] 3 = [] ∧
      (DecisionTree.split_test [[3]] 0 3).2.1 = [] ∧
      (DecisionTree.split_test [[3]] 0 3).2.2.2 = [0] := by
  refine ⟨by decide, by decide, by decide, by decide⟩

/-- C5: on an empty label vector `information_gain` does not return the
gain `0` — it raises: the unbound `t` inside `entropy(y)` is read
before the empty-input early return could fire (so even
`entropy([])` raises), and under the charitable `t`-as-`y` reading the
final `0 / len(y)` would still raise `ZeroDivisionError`.  Evaluated at
the failing input `featureValues = []`, `labels = []`,
`threshold = 0`. -/
theorem information_gain_empty_raises :
    DecisionTree.information_gainRun [] [] 0 = none ∧
      DecisionTree.information_gainRun [] [] 0 ≠ some 0 ∧
      DecisionTree.entropyRun [] = none :=
  ⟨rfl, fun h => Option.noConfusion h, rfl⟩

/-- C6 counterexample: on the column `[0, 1/100000]`, whose spread is
exactly `eps`, the last of the ten generated thresholds equals the
column's exact minimum. -/
theorem threshold_hits_min :
    listMin (col [[0], [1 / 100000]] 0) = 0 ∧
      9 < (DecisionTree.threshes [[0], [1 / 100000]] 0).length ∧
      (DecisionTree.threshes [[0], [1 / 100000]] 0).getD 9 1 =
        listMin (col [[0], [1 / 100000]] 0) := by
  have hmin : listMin (col [[0], [(1 : ℚ) / 100000]] 0) = 0 := by
    norm_num [listMin, col, min_def]
  have hmax : listMax (col [[0], [(1 : ℚ) / 100000]] 0) = 1 / 100000 := by
    norm_num [listMax, col, max_def]
  refine ⟨hmin, by simp [DecisionTree.threshes, linspace10], ?_⟩
  rw [DecisionTree.threshes, linspace10, getD_range_map 10 9 _ 1 (by norm_num), hmin, hmax]
  norm_num [eps]

/-- C6 (amended: the separation from the exact extremes holds whenever
the column's spread is at least `2·eps`): every dimension gets exactly
ten candidate thresholds, evenly spaced from `min + eps` to
`max - eps`, and under the spread proviso none of them equals the exact
minimum or maximum. -/
theorem threshes_spec (X : List (List ℚ)) (i : ℕ) :
    (DecisionTree.threshes X i).length = 10 ∧
      (DecisionTree.threshes X i).getD 0 0 = listMin (col X i) + eps ∧
      (DecisionTree.threshes X i).getD 9 0 = listMax (col X i) - eps ∧
      (∀ j, j + 1 < 10 →
        (DecisionTree.threshes X i).getD (j + 1) 0 -
            (DecisionTree.threshes X i).getD j 0 =
          ((listMax (col X i) - eps) - (listMin (col X i) + eps)) / 9) ∧
      (2 * eps ≤ listMax (col X i) - listMin (col X i) →
        ∀ t ∈ DecisionTree.threshes X i,
          listMin (col X i) < t ∧ t < listMax (col X i)) := by
  refine ⟨by simp [DecisionTree.threshes, linspace10], ?_, ?_, ?_, ?_⟩
  · rw [DecisionTree.threshes, linspace10, getD_range_map 10 0 _ 0 (by norm_num)]
    push_cast
    ring
  · rw [DecisionTree.threshes, linspace10, getD_range_map 10 9 _ 0 (by norm_num)]
    push_cast
    ring
  · intro j hj
    rw [DecisionTree.threshes, linspace10, getD_range_map 10 (j + 1) _ 0 hj,
      getD_range_map 10 j _ 0 (by omega)]
    push_cast
    ring
  · intro hs t ht
    rw [DecisionTree.threshes, linspace10] at ht
    obtain ⟨j, hjr, rfl⟩ := List.mem_map.mp ht
    have hj9 : (j : ℚ) ≤ 9 := by
      have := List.mem_range.mp hjr
      exact_mod_cast Nat.lt_succ_iff.mp this
    have heps : (0 : ℚ) < eps := by norm_num [eps]
    have hstep : (0 : ℚ) ≤
        ((listMax (col X i) - eps) - (listMin (col X i) + eps)) / 9 := by
      apply div_nonneg _ (by norm_num)
      linarith
    have h1 : 0 ≤ (j : ℚ) *
        (((listMax (col X i) - eps) - (listMin (col X i) + eps)) / 9) :=
      mul_nonneg (Nat.cast_nonneg j) hstep
    have h2 : (j : ℚ) *
          (((listMax (col X i) - eps) - (listMin (col X i) + eps)) / 9) ≤
        9 * (((listMax (col X i) - eps) - (listMin (col X i) + eps)) / 9) :=
      mul_le_mul_of_nonneg_right hj9 hstep
    have h3 : (9 : ℚ) *
          (((listMax (col X i) - eps) - (listMin (col X i) + eps)) / 9) =
        (listMax (col X i) - eps) - (listMin (col X i) + eps) := by ring
    constructor
    · linarith
    · linarith

/-- C6 witness: on the column `[0, 1]` (spread `1`, far above `2·eps`)
the first generated threshold lies strictly between the exact minimum
and maximum. -/
theorem threshes_spec_witness :
    listMin (col [[0], [1]] 0) < (DecisionTree.threshes [[0], [1]] 0).getD 0 0 ∧
      (DecisionTree.threshes [[0], [1]] 0).getD 0 0 < listMax (col [[0], [1]] 0) :=
  (threshes_spec [[0], [1]] 0).2.2.2.2
    (by norm_num [listMin, listMax, col, min_def, max_def, eps])
    ((DecisionTree.threshes [[0], [1]] 0).getD 0 0)
    (getD_mem_of_lt _ 0 0 (by simp [DecisionTree.threshes, linspace10]))

/-- C8 counterexample: on the shape-mismatched input `X = [[5, 6]]`,
`y = [2, 3]` with depth budget 0, the call raises (no tree is
returned), but the node fields `data` and `labels` have already been
mutated when the error is raised — refuting the claim that no node
state is mutated before the error. -/
theorem fit_mutates_then_raises_cex :
    DecisionTree.fitRun 0 [[5, 6]] [2, 3] =
      (⟨none, none, some [[5, 6]], some [2, 3], none⟩, none) := rfl

/-- C8 (amended): `fit` performs no input validation of its own and, as
written, raises on every input — malformed or not.  With a positive
depth budget the split search raises (the `NameError` from `entropy`'s
unbound `t`; on zero rows or zero columns, the `np.min`/`np.argmax`
over empty arrays) before any of the node fields `split_idx`, `thresh`,
`data`, `labels`, `pred` is assigned; with depth budget 0 it assigns
`data` and `labels` and only then raises `NameError` at `stats.mode`,
so node state has already been mutated when the error is raised and
`pred` is never set. -/
theorem fit_no_validation_raises (X : List (List ℚ)) (y : List ℤ) (d : ℕ) :
    DecisionTree.fitRun (d + 1) X y = (⟨none, none, none, none, none⟩, none) ∧
      DecisionTree.fitRun 0 X y = (⟨none, none, some X, some y, none⟩, none) := by
  constructor
  · simp only [DecisionTree.fitRun]
    rw [chooseSplitRun_none]
  · rfl

/-- C9: `BaggedTrees.predict` never returns the majority votes: after
filling the per-member `predictions` matrix it evaluates the unbound
name `mode` and raises `NameError` on every call — here evaluated at a
concrete three-member ensemble on a one-row input, and in general. -/
theorem bagged_predict_raises :
    BaggedTrees.predictRun [fun _ => (1 : ℤ), fun _ => 0, fun _ => 1] [[(0 : ℚ)]] =
        none ∧
      ∀ (trees : List (List ℚ → ℤ)) (X : List (List ℚ)),
        BaggedTrees.predictRun trees X = none :=
  ⟨rfl, fun _ _ => rfl⟩

/-- C10: `split_test` partitions the row indices of `X`: `idx0` is
exactly the set of rows whose selected feature is `< thresh` and `idx1`
exactly those `>= thresh`; both index lists are duplicate-free, every
row index below `N` lies in exactly one of them, and the returned
matrices `X0`, `X1` are the corresponding row selections. -/
theorem split_test_partition (X : List (List ℚ)) (idx : ℕ) (th : ℚ) :
    (∀ i, i ∈ (DecisionTree.split_test X idx th).2.1 ↔
        i < X.length ∧ (X.getD i []).getD idx 0 < th) ∧
    (∀ i, i ∈ (DecisionTree.split_test X idx th).2.2.2 ↔
        i < X.length ∧ th ≤ (X.getD i []).getD idx 0) ∧
    (DecisionTree.split_test X idx th).2.1.Nodup ∧
    (DecisionTree.split_test X idx th).2.2.2.Nodup ∧
    (∀ i, i < X.length →
      (i ∈ (DecisionTree.split_test X idx th).2.1 ↔
        i ∉ (DecisionTree.split_test X idx th).2.2.2)) ∧
    (DecisionTree.split_test X idx th).1 =
      (DecisionTree.split_test X idx th).2.1.map (fun i => X.getD i []) ∧
    (DecisionTree.split_test X idx th).2.2.1 =
      (DecisionTree.split_test X idx th).2.2.2.map (fun i => X.getD i []) := by
  refine ⟨?_, ?_, ?_, ?_, ?_, rfl, rfl⟩
  · intro i
    simp [DecisionTree.split_test, List.mem_filter, List.mem_range]
  · intro i
    simp [DecisionTree.split_test, List.mem_filter, List.mem_range]
  · exact (List.nodup_range _).filter _
  · exact (List.nodup_range _).filter _
  · intro i hi
    simp [DecisionTree.split_test, List.mem_filter, List.mem_range, hi, not_le]

/-- C10 witness: on the concrete matrix `[[0], [2]]` with threshold `1`
row `0` falls in the low part and, by the partition theorem, not in the
high part. -/
theorem split_test_partition_witness :
    0 ∈ (DecisionTree.split_test [[0], [2]] 0 1).2.1 ∧
      0 ∉ (DecisionTree.split_test [[0], [2]] 0 1).2.2.2 :=
  ⟨by decide,
    ((split_test_partition [[0], [2]] 0 1).2.2.2.2.1 0 (by decide)).mp (by decide)⟩
